import Mathlib

/-!
Shallow embedding of the PregnancyProject repository (FastAPI pregnancy
tracking agent) used to settle the frozen claims about its specification.

Modelling conventions:
* Python floats are modelled as real numbers (`ℝ`); Python ints as `ℤ`/`ℕ`.
* Python `datetime`/`date` values are modelled as integers (days / timestamps).
* Python dictionaries whose payloads never influence control flow are
  modelled as association lists of strings (`PyDict`).
* Fallible collaborators (MongoDB, the Ollama AI model, the embeddings
  service) are modelled as `Except String` results carried by an
  environment record `Env`; each collaborator is assumed to behave
  consistently within a single processed turn.
* Python's `sorted` is documented stable and is modelled by the stable
  insertion sort `pySort`.  `np.argsort`'s default quicksort guarantees only
  a value-sorted permutation of the indices; the order among equal values is
  implementation-defined (index-ascending only in its small-array
  insertion-sort regime).  What any admissible argsort result guarantees is
  captured by the predicate `IsArgsortOf`; the executable definition
  `argsort` picks one admissible refinement (the stable one, which numpy's
  insertion sort realises on small arrays) so that concrete runs evaluate,
  and the ranking claim is proved for every admissible result.
-/

namespace PregnancyProject

/-- Python dictionary with string keys and payloads that never influence
control flow; modelled as an association list. -/
abbrev PyDict := List (String × String)

/-- Lookup with default, modelling Python `dict.get(key, default)`. -/
def pyGet (d : PyDict) (key dflt : String) : String :=
  match d.find? (fun kv => kv.fst = key) with
  | some kv => kv.snd
  | none => dflt

/-- One step of a stable insertion sort: the incoming element `a` is placed
after every already-sorted element `b` with `keep b a = true` and before the
first element with `keep b a = false`.  With `keep b a` = "`b` may stay in
front of `a`", processing a list front to back with `pyInsert` yields exactly
the stable sort semantics of Python's `sorted`. -/
def pyInsert (keep : α → α → Bool) (a : α) : List α → List α
  | [] => [a]
  | b :: l => if keep b a then b :: pyInsert keep a l else a :: b :: l

/-- Stable sort (the semantics of Python's `sorted`): fold the input front to
back, inserting each element after all earlier elements it does not displace. -/
def pySort (keep : α → α → Bool) (l : List α) : List α :=
  l.foldl (fun acc a => pyInsert keep a acc) []

/-! ### `app/utils/embeddings.py` -/

/-- Dot product of two vectors (`np.dot` on equal-length lists). -/
noncomputable def dotList (v w : List ℝ) : ℝ :=
  (List.zipWith (fun a b => a * b) v w).sum

/-- Euclidean norm (`np.linalg.norm`). -/
noncomputable def normL2 (v : List ℝ) : ℝ :=
  Real.sqrt (dotList v v)

/-- `EmbeddingsGenerator._cosine_similarity`: cosine similarity
`dot(a,b) / (||a|| * ||b||)`, returning `0.0` when either norm is zero. -/
noncomputable def cosine_similarity (vec1 vec2 : List ℝ) : ℝ :=
  let dot_product := dotList vec1 vec2
  let norm1 := normL2 vec1
  let norm2 := normL2 vec2
  if norm1 = 0 ∨ norm2 = 0 then 0
  else dot_product / (norm1 * norm2)

/-- An admissible result of `np.argsort(v)`: a permutation of the index
range `0 .. n-1` that is non-decreasing in value.  NumPy's default
`kind='quicksort'` (introsort) guarantees nothing more — in particular the
order among equal values is implementation-defined, not stable in general. -/
def IsArgsortOf (v : List ℝ) (idxs : List ℕ) : Prop :=
  idxs.Perm (List.range v.length) ∧
  idxs.Pairwise (fun i j => v.getD i 0 ≤ v.getD j 0)

/-- Keep test of a stable ascending argsort: the already-placed index `j`
stays in front of the incoming index `i` when its value is not larger. -/
noncomputable def keepByValueAsc (v : List ℝ) (j i : ℕ) : Bool :=
  decide (v.getD j 0 ≤ v.getD i 0)

/-- `np.argsort(similarities)`, as one admissible, executable refinement of
`IsArgsortOf`: the indices `0 .. n-1` sorted ascending by value with a
deterministic (stable) resolution of ties.  The source's default quicksort
leaves the tie order implementation-defined; this refinement coincides with
numpy exactly in its small-array insertion-sort regime, and no claim relies
on its tie order outside that regime (out-of-range indices read as `0`,
never hit). -/
noncomputable def argsort (v : List ℝ) : List ℕ :=
  pySort (keepByValueAsc v) (List.range v.length)

/-- Python slice `l[-k:]`: the last `k` elements, or all of `l` when `k = 0`
(since `-0 == 0`) or when `k` exceeds the length. -/
def takeLastPy (k : ℕ) (l : List α) : List α :=
  if k = 0 then l else l.drop (l.length - k)

/-- `EmbeddingsGenerator.similarity_search`: ranks candidate document
embeddings by cosine similarity against the query and returns
`np.argsort(similarities)[-top_k:][::-1]` as a list of indices. -/
noncomputable def similarity_search (query_embedding : List ℝ)
    (document_embeddings : List (List ℝ)) (top_k : ℕ) : List ℕ :=
  if document_embeddings.isEmpty then []
  else
    let similarities := document_embeddings.map (cosine_similarity query_embedding)
    (takeLastPy top_k (argsort similarities)).reverse

/-- Strict lexicographic order on indices into a similarity list: smaller
value first, equal values ordered by ascending index.  The stable refinement
`argsort` is pairwise-ordered by this relation (an internal property of the
refinement, not a guarantee of `np.argsort`). -/
def lexLt (v : List ℝ) (i j : ℕ) : Prop :=
  v.getD i 0 < v.getD j 0 ∨ (v.getD i 0 = v.getD j 0 ∧ i < j)

/-! ### Data model (`app/agent/user_profile.py`, pydantic models)

`created_at` / `updated_at` audit timestamps are omitted: no code path
read by the claims consults them. -/

/-- `MedicalDocument` (pydantic model) attached to a user profile. -/
structure MedicalDocument where
  document_id : String
  doc_type : String
  upload_date : Int
  document_date : Option String
  original_filename : String
  text_length : Nat
  chunks_count : Nat
  status : String
  metadata : PyDict
deriving DecidableEq, Repr

/-- `UserProfile` (pydantic model).  `pregnancy_week` carries the pydantic
validation bounds `ge=1, le=42` as documentation; dates are day numbers. -/
structure UserProfile where
  user_id : String
  name : Option String
  date_of_birth : Option Int
  pregnancy_week : Option Int
  lmp_date : Option Int
  due_date : Option Int
  height : Option ℚ
  weight : Option ℚ
  blood_type : Option String
  medical_conditions : List String
  allergies : List String
  medications : List String
  emergency_contact : Option String
  medical_documents : List MedicalDocument
deriving DecidableEq, Repr

/-- Python truthiness of an `Optional[int]`: `None` and `0` are falsy. -/
def truthyOptInt : Option Int → Bool
  | some w => w ≠ 0
  | none => false

/-- `UserProfileManager.calculate_pregnancy_week`: floor-divide the number of
days since the last menstrual period by 7 and clamp into `[1, 42]`.
Python `//` on ints is floor division, i.e. `Int.fdiv`. -/
def calculate_pregnancy_week (today lmp_date : Int) : Int :=
  let days_pregnant := today - lmp_date
  let weeks_pregnant := Int.fdiv days_pregnant 7
  max 1 (min 42 weeks_pregnant)

/-- Trimester branch of `UserProfileManager.get_pregnancy_info`: fills the
`trimester` field (Hebrew label) only when `profile.pregnancy_week` is truthy;
weeks `≤ 13` are first, `14..26` second, `≥ 27` third. -/
def get_pregnancy_info_trimester (pregnancy_week : Option Int) : Option String :=
  match pregnancy_week with
  | some w =>
    if w ≠ 0 then
      if w ≤ 13 then some "ראשון"
      else if w ≤ 26 then some "שני"
      else some "שלישי"
    else none
  | none => none

/-! ### `app/database/data_processing.py` -/

/-- `PregnancyDataProcessor.calculate_trimester`, transcribed exactly: note
that the source's `14..26` branch returns the string `"third"`, not
`"second"`. -/
def calculate_trimester (pregnancy_week : Option Int) : String :=
  match pregnancy_week with
  | none => "unknown"
  | some w =>
    if w ≤ 13 then "first"
    else if w ≤ 26 then "third"
    else "third"

/-- Correspondence between the Hebrew trimester labels of
`get_pregnancy_info` and the English labels of `calculate_trimester`. -/
def trimester_he_to_en (s : String) : String :=
  if s = "ראשון" then "first"
  else if s = "שני" then "second"
  else if s = "שלישי" then "third"
  else "unknown"

/-! ### `app/agent/memory_manager.py` data -/

/-- A stored memory record as inserted by `MemoryManager.store_memory`. -/
structure Memory where
  user_id : String
  memory_type : String
  content : String
  ai_enhanced_content : String
  importance : ℚ
  metadata : PyDict
  created_at : Int
  last_accessed : Int
deriving DecidableEq, Repr

/-- Observable persistence events of one processed turn, in program order:
insertion of a conversation record, invocation of an action handler, and
insertion of a memory record of a given `memory_type`. -/
inductive Event where
  | conversationStored : Event
  | actionExecuted : String → Event
  | memoryStored : String → Event
deriving DecidableEq, Repr

/-! ### Collaborator environment

All MongoDB reads/writes and AI-model calls a single turn performs, as
`Except`-valued results.  Each collaborator behaves consistently within the
turn (e.g. every `get_user_profile` call returns `profileRes`). -/

/-- The collaborators of one processed turn. -/
structure Env where
  /-- Current date (day number), for `date.today()` / `datetime.utcnow()`. -/
  today : Int
  /-- Result of `user_profile_manager.get_user_profile`. -/
  profileRes : Except String (Option UserProfile)
  /-- Result of `user_profile_manager.update_user_profile`. -/
  updateProfileRes : Except String (Option UserProfile)
  /-- Result of `ai_model.generate_medical_review`. -/
  aiMedicalReviewRes : Except String PyDict
  /-- Result of `ai_model.generate_pregnancy_week_insights`. -/
  aiWeekInsightsRes : Except String PyDict
  /-- Result of `ai_model.generate_pregnancy_education`. -/
  aiEducationRes : Except String PyDict
  /-- Result of `ai_model.generate_appointment_recommendations`. -/
  aiApptRecsRes : Except String PyDict
  /-- Result of `ai_model.generate_document_upload_recommendations`. -/
  aiUploadRecsRes : Except String PyDict
  /-- Result of `ai_model.generate_reminder_settings`. -/
  aiReminderRes : Except String PyDict
  /-- Result of `ai_model.generate_emergency_recommendations`. -/
  aiEmergencyRes : Except String PyDict
  /-- Result of `ai_model.analyze_symptoms`. -/
  aiSymptomRes : Except String PyDict
  /-- Result of `ai_model.analyze_contractions`. -/
  aiContractionsRes : Except String PyDict
  /-- Combined result of `memory_manager.store_conversation`
  (`ai_model.analyze_conversation` followed by the Mongo insert). -/
  storeConversationRes : Except String String
  /-- Combined result of `memory_manager.store_memory` (enhancement + insert)
  as called for appointment and reminder memories. -/
  storeMemoryRes : Except String String
  /-- Combined result of `memory_manager.store_medical_memory`. -/
  storeMedicalMemoryRes : Except String String
  /-- Combined result of `memory_manager.store_pregnancy_memory`. -/
  storePregnancyMemoryRes : Except String String
  /-- `memory_manager.get_recent_conversations` result (it degrades to `[]`
  internally on failure); conversation records are opaque dictionaries. -/
  recentConversations : List PyDict
  /-- The user's stored memories as returned by the Mongo query of
  `get_relevant_memories`, i.e. already sorted by
  (`last_accessed` descending, `importance` descending). -/
  memories : List Memory
  /-- `EmbeddingsGenerator._generate_single_embedding`: the Ollama embedding
  call, which may raise. -/
  embed : String → Except String (List ℝ)
  /-- `ChatRouter._extract_contraction_info`: regular-expression extraction of
  contraction data from the message, modelled as an environment-supplied
  parser (regex matching is not modelled). -/
  contractionInfoOf : String → Option PyDict

/-! ### `MemoryManager.get_relevant_memories` -/

/-- The embedding phase of `get_relevant_memories`: embed the query, then
embed each memory's text `f"{content} {ai_enhanced_content}"`; the first
raised error aborts the phase (Python raises at the first failing call). -/
noncomputable def embed_all (env : Env) (query : String) :
    Except String (List ℝ × List (List ℝ)) := do
  let query_embedding ← env.embed query
  let memory_embeddings ← env.memories.mapM
    (fun memory => env.embed (memory.content ++ " " ++ memory.ai_enhanced_content))
  pure (query_embedding, memory_embeddings)

/-- `MemoryManager.get_relevant_memories`: rank the user's memories against
the query with `similarity_search`; on any embedding/ranking failure fall
back to the first `limit` records of the same recency+importance-sorted
Mongo query (`find(...).limit(limit)`). -/
noncomputable def get_relevant_memories (env : Env) (query : String) (limit : ℕ) :
    List Memory :=
  let all_memories := env.memories
  if all_memories.isEmpty then []
  else
    match embed_all env query with
    | .error _ => all_memories.take limit
    | .ok (query_embedding, memory_embeddings) =>
      let similar_indices := similarity_search query_embedding memory_embeddings limit
      similar_indices.filterMap (fun idx => all_memories.get? idx)

/-! ### `app/agent/action_planner.py` -/

/-- A planned `Action`.  The wall-clock `created_at` field is omitted;
`completed` starts `False`. -/
structure Action where
  action_type : String
  description : String
  priority : Nat
  metadata : PyDict
  completed : Bool
deriving DecidableEq, Repr

/-- Result dictionary of an action handler.  `status`, `message` and
`action_type` are the control-relevant keys; AI payload keys
(`review_results`, `insights`, ...) never influence control flow and are
omitted. -/
structure ActionResult where
  status : String
  message : String
  action_type : Option String
deriving DecidableEq, Repr

/-- The `{"status": "error", "message": str(e)}` dictionary every handler
returns from its `except` clause. -/
def errorResult (e : String) : ActionResult :=
  { status := "error", message := e, action_type := none }

/-- `user_profile_manager.get_user_medical_documents` (no type filter): the
profile's document list, `[]` for a missing profile, propagating a raised
profile-fetch error. -/
def get_user_medical_documents (env : Env) : Except String (List MedicalDocument) :=
  match env.profileRes with
  | .error e => .error e
  | .ok none => .ok []
  | .ok (some profile) => .ok profile.medical_documents

/-- The conversation context assembled by `ChatRouter._get_conversation_context`;
its `except` clause yields the empty dictionary, modelled by empty fields. -/
structure Context where
  recent_conversations : List PyDict
  relevant_memories : List Memory
  user_profile : Option UserProfile
  medical_documents : List MedicalDocument
  current_time : Int
  context : PyDict
deriving DecidableEq, Repr

/-- The empty conversation context (`{}`). -/
def emptyContext : Context :=
  { recent_conversations := [], relevant_memories := [], user_profile := none
    medical_documents := [], current_time := 0, context := [] }

/-- `ActionPlanner._medical_review`: review uploaded documents with the AI
model and store a medical memory; `info` when no documents exist, `error`
dictionary on any raised collaborator error (caught by the handler). -/
def medical_review (env : Env) (_ctx : Context) : ActionResult × List Event :=
  match get_user_medical_documents env with
  | .error e => (errorResult e, [])
  | .ok documents =>
    if documents.isEmpty then
      ({ status := "info", message := "No medical documents found for review"
         action_type := some "medical_review" }, [])
    else
      match env.aiMedicalReviewRes with
      | .error e => (errorResult e, [])
      | .ok _ =>
        match env.storeMedicalMemoryRes with
        | .error e => (errorResult e, [])
        | .ok _ =>
          ({ status := "success", message := "Medical review completed"
             action_type := some "medical_review" }, [Event.memoryStored "medical"])

/-- `ActionPlanner._pregnancy_update`: recompute the pregnancy week from the
LMP date; when it changed, update the profile, fetch week insights and store
a pregnancy memory; otherwise report `info` that the week is up to date. -/
def pregnancy_update (env : Env) (_ctx : Context) : ActionResult × List Event :=
  let up_to_date : ActionResult × List Event :=
    ({ status := "info", message := "Pregnancy week is up to date"
       action_type := some "pregnancy_update" }, [])
  match env.profileRes with
  | .error e => (errorResult e, [])
  | .ok none => up_to_date
  | .ok (some profile) =>
    match profile.lmp_date with
    | none => up_to_date
    | some lmp =>
      let current_week := calculate_pregnancy_week env.today lmp
      if profile.pregnancy_week ≠ some current_week then
        match env.updateProfileRes with
        | .error e => (errorResult e, [])
        | .ok _ =>
          match env.aiWeekInsightsRes with
          | .error e => (errorResult e, [])
          | .ok _ =>
            match env.storePregnancyMemoryRes with
            | .error e => (errorResult e, [])
            | .ok _ =>
              ({ status := "success"
                 message := "Pregnancy week updated to " ++ toString current_week
                 action_type := some "pregnancy_update" },
               [Event.memoryStored "pregnancy"])
      else up_to_date

/-- `ActionPlanner._pregnancy_education`: AI education content for the
current week plus a pregnancy memory; `info` when the week is unknown. -/
def pregnancy_education (env : Env) (_ctx : Context) : ActionResult × List Event :=
  let need_week : ActionResult × List Event :=
    ({ status := "info", message := "Pregnancy week information needed for education"
       action_type := some "pregnancy_education" }, [])
  match env.profileRes with
  | .error e => (errorResult e, [])
  | .ok none => need_week
  | .ok (some profile) =>
    match profile.pregnancy_week with
    | none => need_week
    | some w =>
      if w ≠ 0 then
        match env.aiEducationRes with
        | .error e => (errorResult e, [])
        | .ok _ =>
          match env.storePregnancyMemoryRes with
          | .error e => (errorResult e, [])
          | .ok _ =>
            ({ status := "success"
               message := "Pregnancy education for week " ++ toString w
               action_type := some "pregnancy_education" },
             [Event.memoryStored "pregnancy"])
      else need_week

/-- `ActionPlanner._contraction_tracking`: the conversation context built by
`_get_conversation_context` never carries a `contraction_data` key, so
`context.get("contraction_data", {})` is always the falsy `{}` and the
handler reports `info`. -/
def contraction_tracking (_env : Env) (_ctx : Context) : ActionResult × List Event :=
  ({ status := "info", message := "Contraction data needed for analysis"
     action_type := some "contraction_tracking" }, [])

/-- `ActionPlanner._schedule_appointment` with the default
`appointment_type = "general"` (the key is absent from the conversation
context). -/
def schedule_appointment (env : Env) (_ctx : Context) : ActionResult × List Event :=
  match env.aiApptRecsRes with
  | .error e => (errorResult e, [])
  | .ok _ =>
    match env.storeMemoryRes with
    | .error e => (errorResult e, [])
    | .ok _ =>
      ({ status := "success"
         message := "Appointment scheduling for general with AI recommendations"
         action_type := some "schedule_appointment" }, [Event.memoryStored "appointment"])

/-- `ActionPlanner._upload_document` with the default document types. -/
def upload_document (env : Env) (_ctx : Context) : ActionResult × List Event :=
  match env.aiUploadRecsRes with
  | .error e => (errorResult e, [])
  | .ok _ =>
    ({ status := "success"
       message := "Document upload available with AI recommendations"
       action_type := some "upload_document" }, [])

/-- `ActionPlanner._create_reminder` with the default
`reminder_type = "general"`. -/
def create_reminder (env : Env) (_ctx : Context) : ActionResult × List Event :=
  match env.aiReminderRes with
  | .error e => (errorResult e, [])
  | .ok _ =>
    match env.storeMemoryRes with
    | .error e => (errorResult e, [])
    | .ok _ =>
      ({ status := "success"
         message := "AI-optimized reminder created for general"
         action_type := some "reminder" }, [Event.memoryStored "reminder"])

/-- `ActionPlanner._emergency_contact`. -/
def emergency_contact (env : Env) (_ctx : Context) : ActionResult × List Event :=
  match env.profileRes with
  | .error e => (errorResult e, [])
  | .ok _ =>
    match env.aiEmergencyRes with
    | .error e => (errorResult e, [])
    | .ok _ =>
      ({ status := "success"
         message := "Emergency contact information with AI recommendations"
         action_type := some "emergency_contact" }, [])

/-- `ActionPlanner._symptom_tracking` with the default
`tracking_type = "daily"`. -/
def symptom_tracking (env : Env) (_ctx : Context) : ActionResult × List Event :=
  match env.aiSymptomRes with
  | .error e => (errorResult e, [])
  | .ok _ =>
    match env.storePregnancyMemoryRes with
    | .error e => (errorResult e, [])
    | .ok _ =>
      ({ status := "success"
         message := "AI symptom tracking (daily) initiated"
         action_type := some "symptom_tracking" }, [Event.memoryStored "pregnancy"])

/-- Dispatch over `ActionPlanner.available_actions` (the dictionary's nine
keys, in source order); `none` for an unknown action type. -/
def run_handler (env : Env) (action_type : String) (ctx : Context) :
    Option (ActionResult × List Event) :=
  if action_type = "schedule_appointment" then some (schedule_appointment env ctx)
  else if action_type = "upload_document" then some (upload_document env ctx)
  else if action_type = "medical_review" then some (medical_review env ctx)
  else if action_type = "pregnancy_update" then some (pregnancy_update env ctx)
  else if action_type = "reminder" then some (create_reminder env ctx)
  else if action_type = "emergency_contact" then some (emergency_contact env ctx)
  else if action_type = "pregnancy_education" then some (pregnancy_education env ctx)
  else if action_type = "symptom_tracking" then some (symptom_tracking env ctx)
  else if action_type = "contraction_tracking" then some (contraction_tracking env ctx)
  else none

/-- `ActionPlanner.execute_action`: run the handler for a known action type
and only then set `action.completed = True`; unknown types yield an `error`
result and leave the action untouched.  Every available handler catches its
own exceptions, so the method's outer `except` clause is unreachable for
them. -/
def execute_action (env : Env) (action : Action) (ctx : Context) :
    ActionResult × Action × List Event :=
  match run_handler env action.action_type ctx with
  | some (result, events) => (result, { action with completed := true }, events)
  | none =>
    ({ status := "error", message := "Unknown action type", action_type := none },
     action, [])

/-- The keep-in-front test of
`sorted(actions, key=lambda x: x.priority, reverse=True)`: an already-placed
action `b` stays in front of the incoming action `a` unless its priority is
strictly smaller (stable descending sort). -/
def keepByPriorityDesc (b a : Action) : Bool :=
  decide (a.priority ≤ b.priority)

/-- Stable sort of actions by priority descending, the sort used by
`analyze_user_needs`. -/
def sortActionsDesc (actions : List Action) : List Action :=
  pySort keepByPriorityDesc actions

/-- The candidate actions `ActionPlanner.analyze_user_needs` appends for a
profile, in emission order: a priority-2 pregnancy update when
`pregnancy_week` is truthy, a priority-1 medical review when the profile has
documents (`_needs_medical_review`), and priority-2 education when the week
is positive (`_needs_pregnancy_education`). -/
def emitted_actions (profile : UserProfile) : List Action :=
  (if truthyOptInt profile.pregnancy_week then
    [{ action_type := "pregnancy_update"
       description := "Update pregnancy information for week " ++
         (match profile.pregnancy_week with | some w => toString w | none => "None")
       priority := 2
       metadata := [("pregnancy_week",
         (match profile.pregnancy_week with | some w => toString w | none => "None"))]
       completed := false }]
   else []) ++
  (if 0 < profile.medical_documents.length then
    [{ action_type := "medical_review"
       description := "Perform medical review of uploaded documents"
       priority := 1
       metadata := [("review_type", "comprehensive")]
       completed := false }]
   else []) ++
  (if (match profile.pregnancy_week with | some w => decide (0 < w) | none => false) then
    [{ action_type := "pregnancy_education"
       description := "Provide education for pregnancy week " ++
         (match profile.pregnancy_week with | some w => toString w | none => "None")
       priority := 2
       metadata := [("education_type", "weekly_info")]
       completed := false }]
   else [])

/-- `ActionPlanner.analyze_user_needs`: emit the candidate actions for the
fetched profile and return them sorted by priority descending; `[]` when the
profile is missing or its fetch raised (the method's `except` clause returns
the actions accumulated so far, which is `[]`). -/
def analyze_user_needs (env : Env) : List Action :=
  match env.profileRes with
  | .error _ => []
  | .ok none => []
  | .ok (some profile) => sortActionsDesc (emitted_actions profile)

/-! ### `app/agent/chat_router.py` -/

/-- Contiguous-substring test on character lists (Python's `in` on
strings). -/
def char_infix_of (pattern : List Char) : List Char → Bool
  | [] => pattern.isEmpty
  | c :: rest => pattern.isPrefixOf (c :: rest) || char_infix_of pattern rest

/-- Substring test over a list of keywords:
`any(word in message_lower for word in words)`. -/
def contains_any (message_lower : String) (words : List String) : Bool :=
  words.any (fun word => char_infix_of word.toList message_lower.toList)

/-- `message.lower()`, character by character.  (ASCII case folding; the
keyword lists below are Hebrew — caseless — and lowercase ASCII.) -/
def toLowerPy (s : String) : String :=
  String.mk (s.data.map Char.toLower)

/-- `ChatRouter._detect_intent`: first matching keyword family wins, in the
source's order of `elif` branches. -/
def detect_intent (message : String) : String :=
  let m := toLowerPy message
  if contains_any m ["שלום", "היי", "הי", "בוקר טוב", "ערב טוב", "hello", "hi", "hey"] then
    "greeting"
  else if contains_any m ["הריון", "שבוע", "תאריך לידה", "עובר", "pregnancy", "week", "due date"] then
    "pregnancy_info"
  else if contains_any m ["מסמך", "העלאה", "רפואי", "בדיקה", "ultrasound", "blood test", "document"] then
    "medical_documents"
  else if contains_any m ["חוות דעת", "סקירה", "בדיקה", "תוצאות", "review", "opinion", "results"] then
    "medical_review"
  else if contains_any m ["תור", "ביקור", "רופא", "appointment", "visit", "doctor"] then
    "appointment"
  else if contains_any m ["חירום", "דחוף", "עזרה", "emergency", "urgent", "help"] then
    "emergency"
  else if contains_any m ["צירים", "contractions", "ציר", "contraction"] then
    "contraction_tracking"
  else if contains_any m ["בדיקה", "ביצעת", "קנית", "test", "did you", "bought"] then
    "pregnancy_week_check"
  else "general"

/-- `ChatRouter._generate_greeting` (a profile object is always truthy; an
empty name string is falsy). -/
def generate_greeting (user_profile : Option UserProfile) : String :=
  match user_profile with
  | some profile =>
    match profile.name with
    | some n =>
      if n ≠ "" then "שלום " ++ n ++ "! אני הסוכן שלך למעקב הריון. איך את מרגישה היום?"
      else "שלום! אני הסוכן שלך למעקב הריון. איך אוכל לעזור לך היום?"
    | none => "שלום! אני הסוכן שלך למעקב הריון. איך אוכל לעזור לך היום?"
  | none => "שלום! אני הסוכן שלך למעקב הריון. איך אוכל לעזור לך היום?"

/-- `ChatRouter._generate_pregnancy_info` (pure branch on the profile). -/
def generate_pregnancy_info (user_profile : Option UserProfile) : String :=
  match user_profile with
  | none => "אני לא מכיר את פרטי ההריון שלך עדיין. אנא עדכן את הפרופיל עם תאריך הלידה הצפוי או תאריך הווסת האחרונה."
  | some profile =>
    match profile.pregnancy_week with
    | some w =>
      if w ≠ 0 then
        let trimester := if w ≤ 13 then "ראשון" else if w ≤ 26 then "שני" else "שלישי"
        "את נמצאת בשבוע " ++ toString w ++ " להריון (טרימסטר " ++ trimester ++
          "). זה זמן מרגש! האם יש משהו ספציפי שתרצי לדעת על השבוע הזה?"
      else "אני לא מכיר את שבוע ההריון הנוכחי שלך. אנא עדכן את הפרופיל עם תאריך הלידה הצפוי או תאריך הווסת האחרונה."
    | none => "אני לא מכיר את שבוע ההריון הנוכחי שלך. אנא עדכן את הפרופיל עם תאריך הלידה הצפוי או תאריך הווסת האחרונה."

/-- Per-type document counts in first-seen order, as built by the
`doc_types` loop of `_generate_medical_documents_info`. -/
def doc_type_counts (docs : List MedicalDocument) : List (String × ℕ) :=
  docs.foldl
    (fun acc doc =>
      if acc.any (fun kv => kv.fst = doc.doc_type) then
        acc.map (fun kv => if kv.fst = doc.doc_type then (kv.fst, kv.snd + 1) else kv)
      else acc ++ [(doc.doc_type, 1)])
    []

/-- `ChatRouter._generate_medical_documents_info` (its `except` clause
degrades to an error message). -/
def generate_medical_documents_info (env : Env) : String :=
  match get_user_medical_documents env with
  | .error _ => "יש לי בעיה לגשת למסמכים הרפואיים שלך כרגע. אנא נסה שוב מאוחר יותר."
  | .ok documents =>
    if documents.isEmpty then
      "עדיין לא העלית מסמכים רפואיים. את יכולה להעלות בדיקות דם, אולטרסאונד, הערות רופא ומרשמים דרך מדור המסמכים הרפואיים."
    else
      let doc_summary := String.intercalate ", "
        ((doc_type_counts documents).map (fun kv => toString kv.snd ++ " " ++ kv.fst))
      "העלית " ++ toString documents.length ++ " מסמכים רפואיים: " ++ doc_summary ++
        ". האם תרצי שאסקור אותם עבורך?"

/-- `ChatRouter._generate_medical_review_response` (its `except` clause
degrades to an error message). -/
def generate_medical_review_response (env : Env) : String :=
  match get_user_medical_documents env with
  | .error _ => "יש לי בעיה ליצור סקירה רפואית כרגע. אנא נסה שוב מאוחר יותר."
  | .ok documents =>
    if documents.isEmpty then "אין לך מסמכים רפואיים לסקירה. אנא העלה מסמכים תחילה."
    else
      match env.aiMedicalReviewRes with
      | .error _ => "יש לי בעיה ליצור סקירה רפואית כרגע. אנא נסה שוב מאוחר יותר."
      | .ok ai_review =>
        "סקירה רפואית: " ++ pyGet ai_review "summary" "המסמכים נבדקו" ++ ". " ++
          pyGet ai_review "recommendations" "המשך מעקב שגרתי"

/-- `ChatRouter._generate_contraction_tracking_response` (its `except`
clause degrades to an error message). -/
def generate_contraction_tracking_response (env : Env) (message : String) : String :=
  match env.contractionInfoOf message with
  | some _ =>
    match env.aiContractionsRes with
    | .error _ => "יש לי בעיה לעקוב אחר הצירים כרגע. אנא נסה שוב."
    | .ok ai_analysis =>
      "ניתוח צירים: " ++ pyGet ai_analysis "pattern" "דפוס תקין" ++ ". " ++
        pyGet ai_analysis "recommendation" "המשך מעקב"
  | none =>
    "אני יכול לעזור לך לעקוב אחר הצירים. אנא ספרי לי:\n- כמה זמן נמשך כל ציר?\n- מה המרווח בין הצירים?\n- מתי התחילו?"

/-- `ChatRouter._generate_pregnancy_week_check`: has no `try` of its own, so
a raised AI error propagates (to `_generate_response`'s handler). -/
def generate_pregnancy_week_check (env : Env) (user_profile : Option UserProfile) :
    Except String String :=
  match user_profile with
  | none => .ok "אני לא מכיר את שבוע ההריון שלך. אנא עדכן את הפרופיל."
  | some profile =>
    match profile.pregnancy_week with
    | none => .ok "אני לא מכיר את שבוע ההריון שלך. אנא עדכן את הפרופיל."
    | some w =>
      if w ≠ 0 then
        match env.aiWeekInsightsRes with
        | .error e => .error e
        | .ok week_insights =>
          .ok ("בשבוע " ++ toString w ++ " להריון: " ++
            pyGet week_insights "week_summary" "המשך מעקב שגרתי" ++ ". " ++
            pyGet week_insights "recommendations" "")
      else .ok "אני לא מכיר את שבוע ההריון שלך. אנא עדכן את הפרופיל."

/-- `ChatRouter._generate_appointment_response`. -/
def generate_appointment_response : String :=
  "אני יכול לעזור לך לתאם תורים ולנהל את הטיפול הטרום לידתי. איזה סוג תור תרצי לתאם?"

/-- `ChatRouter._generate_emergency_response`. -/
def generate_emergency_response (user_profile : Option UserProfile) : String :=
  match user_profile with
  | some profile =>
    match profile.emergency_contact with
    | some c =>
      if c ≠ "" then
        "אם את חווה מצב חירום, אנא פני מיד לרופא המטפל. פרטי קשר חירום: " ++ c
      else "אם את חווה מצב חירום, אנא פני מיד לרופא המטפל או לחדר המיון הקרוב."
    | none => "אם את חווה מצב חירום, אנא פני מיד לרופא המטפל או לחדר המיון הקרוב."
  | none => "אם את חווה מצב חירום, אנא פני מיד לרופא המטפל או לחדר המיון הקרוב."

/-- `ChatRouter._generate_general_response`: lists up to two planned action
descriptions.  The source wraps the echoed message in single quotes, written
here with the escape `\x27`. -/
def generate_general_response (message : String) (actions : List Action) : String :=
  if actions.isEmpty then
    "אני כאן לתמוך בך לאורך כל מסע ההריון. אני יכול לעזור לך בניהול מסמכים רפואיים, מעקב הריון, תזמון תורים ועוד. מה תרצי לדעת?"
  else
    let action_descriptions := (actions.take 2).map (fun a => a.description)
    "אני מבין שאת שואלת על \x27" ++ message ++ "\x27. אני יכול לעזור לך עם: " ++
      String.intercalate ", " action_descriptions ++ ". במה תרצי להתמקד?"

/-- `ChatRouter._generate_response`: dispatch on the detected intent; the
method's `except` clause degrades any raised error (only the
`pregnancy_week_check` branch can raise) to a fixed helper message. -/
def generate_response (env : Env) (message : String) (user_profile : UserProfile)
    (actions : List Action) : String :=
  let intent := detect_intent message
  if intent = "greeting" then generate_greeting (some user_profile)
  else if intent = "pregnancy_info" then generate_pregnancy_info (some user_profile)
  else if intent = "medical_documents" then generate_medical_documents_info env
  else if intent = "medical_review" then generate_medical_review_response env
  else if intent = "appointment" then generate_appointment_response
  else if intent = "emergency" then generate_emergency_response (some user_profile)
  else if intent = "contraction_tracking" then generate_contraction_tracking_response env message
  else if intent = "pregnancy_week_check" then
    match generate_pregnancy_week_check env (some user_profile) with
    | .ok s => s
    | .error _ => "אני כאן כדי לעזור לך במסע ההריון שלך. איך אוכל לסייע לך היום?"
  else generate_general_response message actions

/-- `ChatRouter._get_conversation_context`: gather recent conversations,
relevant memories (limit 3, empty query), the profile and its documents; the
method's `except` clause degrades to the empty context when the profile
fetch raises (the only remaining raising call). -/
noncomputable def get_conversation_context (env : Env) (callerContext : PyDict) : Context :=
  match env.profileRes with
  | .error _ => emptyContext
  | .ok p? =>
    { recent_conversations := env.recentConversations
      relevant_memories := get_relevant_memories env "" 3
      user_profile := p?
      medical_documents := match p? with | some profile => profile.medical_documents | none => []
      current_time := env.today
      context := callerContext }

/-- One entry of the `executed_actions` list returned by `process_message`. -/
structure ExecutedAction where
  action_type : String
  description : String
  result : ActionResult
deriving DecidableEq, Repr

/-- The dictionary returned by `ChatRouter.process_message`.  A missing
`user_profile` key is modelled as `none`. -/
structure ChatResponse where
  response : String
  actions : List ExecutedAction
  context : Context
  user_profile : Option UserProfile
  needs_profile : Bool
deriving DecidableEq, Repr

/-- The fixed terminal apology returned by `process_message`'s `except`
clause. -/
def apologyResponse : ChatResponse :=
  { response := "מצטערת, נתקלתי בשגיאה בעיבוד ההודעה שלך. אנא נסה שוב."
    actions := [], context := emptyContext, user_profile := none
    needs_profile := false }

/-- The response returned when no profile exists for the user. -/
def needsProfileResponse : ChatResponse :=
  { response := "אני לא מכיר אותך עדיין. אנא צור פרופיל משתמש תחילה."
    actions := [], context := emptyContext, user_profile := none
    needs_profile := true }

/-- The execution loop of `process_message`: over the first three planned
actions, execute those with `priority >= 2` and append an executed-action
entry; other actions are skipped.  Also yields the persistence events in
program order. -/
def execute_top_actions (env : Env) (ctx : Context) (actions : List Action) :
    List ExecutedAction × List Event :=
  (actions.take 3).foldl
    (fun acc action =>
      if 2 ≤ action.priority then
        let r := execute_action env action ctx
        (acc.fst ++ [{ action_type := action.action_type
                       description := action.description
                       result := r.fst }],
         acc.snd ++ [Event.actionExecuted action.action_type] ++ r.snd.snd)
      else acc)
    ([], [])

/-- `ChatRouter.process_message`: fetch the profile, build the context, plan
actions, generate the response, store the conversation, then execute the
top-priority actions; any error raised by the profile fetch or the
conversation store is degraded to `apologyResponse` by the `except` clause.
The second component is the turn's persistence-event trace in program
order. -/
noncomputable def process_message (env : Env) (message : String)
    (callerContext : PyDict) : ChatResponse × List Event :=
  match env.profileRes with
  | .error _ => (apologyResponse, [])
  | .ok none => (needsProfileResponse, [])
  | .ok (some user_profile) =>
    let conversation_context := get_conversation_context env callerContext
    let actions := analyze_user_needs env
    let response := generate_response env message user_profile actions
    match env.storeConversationRes with
    | .error _ => (apologyResponse, [])
    | .ok _ =>
      let executed := execute_top_actions env conversation_context actions
      ({ response := response
         actions := executed.fst
         context := conversation_context
         user_profile := some user_profile
         needs_profile := false },
       Event.conversationStored :: executed.snd)

/-! ### Concrete fixtures used by witnesses and counterexamples -/

/-- A processed ultrasound document. -/
def doc0 : MedicalDocument :=
  { document_id := "doc-1", doc_type := "ultrasound", upload_date := 738500
    document_date := none, original_filename := "scan.pdf", text_length := 120
    chunks_count := 3, status := "processed", metadata := [] }

/-- A profile in pregnancy week 20 with exactly one attached medical
document (the scenario of the spec's worked example). -/
def profileWeek20 : UserProfile :=
  { user_id := "user-1", name := some "דנה", date_of_birth := none
    pregnancy_week := some 20, lmp_date := none, due_date := none
    height := none, weight := none, blood_type := none
    medical_conditions := [], allergies := [], medications := []
    emergency_contact := none, medical_documents := [doc0] }

/-- The same profile with no medical documents attached. -/
def profileNoDocs : UserProfile :=
  { profileWeek20 with medical_documents := [] }

/-- A stored memory record. -/
def mem0 : Memory :=
  { user_id := "user-1", memory_type := "conversation", content := "first visit"
    ai_enhanced_content := "first visit to the clinic", importance := 1
    metadata := [], created_at := 738500, last_accessed := 738510 }

/-- A fully healthy collaborator environment for `profileWeek20`: every
Mongo/AI call succeeds; the user has no stored memories and the embedding
service is down (irrelevant: memories are empty). -/
def env0 : Env :=
  { today := 738600
    profileRes := .ok (some profileWeek20)
    updateProfileRes := .ok (some profileWeek20)
    aiMedicalReviewRes := .ok [("summary", "all normal")]
    aiWeekInsightsRes := .ok [("summary", "week twenty")]
    aiEducationRes := .ok [("content", "weekly info")]
    aiApptRecsRes := .ok []
    aiUploadRecsRes := .ok []
    aiReminderRes := .ok []
    aiEmergencyRes := .ok []
    aiSymptomRes := .ok []
    aiContractionsRes := .ok []
    storeConversationRes := .ok "conv-1"
    storeMemoryRes := .ok "mem-a"
    storeMedicalMemoryRes := .ok "mem-b"
    storePregnancyMemoryRes := .ok "mem-c"
    recentConversations := []
    memories := []
    embed := fun _ => .error "embedding service unavailable"
    contractionInfoOf := fun _ => none }

/-- `env0` for the documentless profile. -/
def envNoDocs : Env :=
  { env0 with profileRes := .ok (some profileNoDocs) }

/-- An environment whose profile fetch raises. -/
def envProfileDown : Env :=
  { env0 with profileRes := .error "database unavailable" }

/-- `env0` with one stored memory; the embedding service still fails. -/
def envEmbedDown : Env :=
  { env0 with memories := [mem0] }

/-- Example actions A(1), B(2), C(1), D(3) from the spec's stable-sort
example. -/
def actionA : Action :=
  { action_type := "a", description := "A", priority := 1, metadata := [], completed := false }

/-- Example action B with priority 2. -/
def actionB : Action :=
  { action_type := "b", description := "B", priority := 2, metadata := [], completed := false }

/-- Example action C with priority 1. -/
def actionC : Action :=
  { action_type := "c", description := "C", priority := 1, metadata := [], completed := false }

/-- Example action D with priority 3. -/
def actionD : Action :=
  { action_type := "d", description := "D", priority := 3, metadata := [], completed := false }

/-- A fresh (not yet completed) medical-review action as planned by
`analyze_user_needs`. -/
def medicalReviewAction : Action :=
  { action_type := "medical_review"
    description := "Perform medical review of uploaded documents"
    priority := 1, metadata := [("review_type", "comprehensive")], completed := false }

/-! ## Lemmas about the stable sort -/

/-- Inserting into a list permutes consing onto it. -/
theorem pyInsert_perm (keep : α → α → Bool) (a : α) (l : List α) :
    (pyInsert keep a l).Perm (a :: l) := by
  induction l with
  | nil => exact List.Perm.refl _
  | cons b l ih =>
    rw [pyInsert]
    cases hk : keep b a
    · simp only [Bool.false_eq_true, if_false]
      exact List.Perm.refl _
    · simp only [if_true]
      exact (ih.cons b).trans (List.Perm.swap a b l)

/-- The stable-sort fold permutes the accumulator followed by the input. -/
theorem pySort_foldl_perm (keep : α → α → Bool) :
    ∀ (l acc : List α),
      (l.foldl (fun acc a => pyInsert keep a acc) acc).Perm (acc ++ l) := by
  intro l
  induction l with
  | nil => intro acc; simp
  | cons a l ih =>
    intro acc
    have h1 := ih (pyInsert keep a acc)
    have h2 : (pyInsert keep a acc ++ l).Perm (acc ++ a :: l) :=
      ((pyInsert_perm keep a acc).append_right l).trans List.perm_middle.symm
    exact h1.trans h2

/-- `pySort` permutes its input. -/
theorem pySort_perm (keep : α → α → Bool) (l : List α) : (pySort keep l).Perm l := by
  simpa using pySort_foldl_perm keep l []

/-- Pairwise preservation for one stable-insertion step, for any relation the
`keep` test respects on the already-sorted elements. -/
theorem pyInsert_pairwise {R : α → α → Prop} {keep : α → α → Bool} {a : α} {l : List α}
    (hl : l.Pairwise R)
    (h1 : ∀ b ∈ l, keep b a = true → R b a)
    (h2 : ∀ b ∈ l, keep b a = false → R a b)
    (h3 : ∀ b ∈ l, ∀ c ∈ l, keep b a = false → R b c → R a c) :
    (pyInsert keep a l).Pairwise R := by
  induction l with
  | nil => simp [pyInsert]
  | cons b l ih =>
    rw [pyInsert]
    rcases List.pairwise_cons.mp hl with ⟨hbl, hl'⟩
    cases hk : keep b a
    · simp only [Bool.false_eq_true, if_false]
      refine List.pairwise_cons.mpr ⟨?_, hl⟩
      intro x hx
      rcases List.mem_cons.mp hx with rfl | hx'
      · exact h2 x (List.mem_cons_self x l) hk
      · exact h3 b (List.mem_cons_self b l) x (List.mem_cons_of_mem b hx') hk (hbl x hx')
    · simp only [if_true]
      refine List.pairwise_cons.mpr ⟨?_, ?_⟩
      · intro x hx
        rcases List.mem_cons.mp ((pyInsert_perm keep a l).mem_iff.mp hx) with rfl | hx'
        · exact h1 b (List.mem_cons_self b l) hk
        · exact hbl x hx'
      · exact ih hl'
          (fun c hc => h1 c (List.mem_cons_of_mem b hc))
          (fun c hc => h2 c (List.mem_cons_of_mem b hc))
          (fun c hc d hd => h3 c (List.mem_cons_of_mem b hc) d (List.mem_cons_of_mem b hd))

/-- The descending-priority relation maintained by `sortActionsDesc`. -/
def priorityDescRel (x y : Action) : Prop := y.priority ≤ x.priority

/-- A `true` keep test means the incoming action's priority is not larger. -/
theorem keep_desc_le {b a : Action} (h : keepByPriorityDesc b a = true) :
    a.priority ≤ b.priority := by
  simpa [keepByPriorityDesc] using h

/-- A `false` keep test means the incoming action displaces `b`. -/
theorem keep_desc_lt {b a : Action} (h : keepByPriorityDesc b a = false) :
    b.priority < a.priority := by
  simp only [keepByPriorityDesc, decide_eq_false_iff_not] at h
  omega

/-- One insertion step preserves descending-sortedness by priority. -/
theorem pyInsert_action_pairwise {a : Action} {l : List Action}
    (hl : l.Pairwise priorityDescRel) :
    (pyInsert keepByPriorityDesc a l).Pairwise priorityDescRel := by
  refine pyInsert_pairwise hl ?_ ?_ ?_
  · intro b _ hb
    exact keep_desc_le hb
  · intro b _ hb
    exact le_of_lt (keep_desc_lt hb)
  · intro b _ c _ hb hbc
    exact le_trans hbc (le_of_lt (keep_desc_lt hb))

/-- The stable-sort fold over actions keeps the accumulator sorted by
priority descending. -/
theorem sortActions_foldl_pairwise :
    ∀ (l acc : List Action), acc.Pairwise priorityDescRel →
      (l.foldl (fun acc a => pyInsert keepByPriorityDesc a acc) acc).Pairwise priorityDescRel := by
  intro l
  induction l with
  | nil => intro acc h; exact h
  | cons a l ih =>
    intro acc hacc
    exact ih (pyInsert keepByPriorityDesc a acc) (pyInsert_action_pairwise hacc)

/-- `sortActionsDesc` output is sorted by priority descending. -/
theorem sortActionsDesc_pairwise (l : List Action) :
    (sortActionsDesc l).Pairwise priorityDescRel :=
  sortActions_foldl_pairwise l [] List.Pairwise.nil

/-- Stability at one insertion step: filtering a priority class out of an
insertion into a descending-sorted list appends the new element exactly when
it belongs to the class. -/
theorem filter_pyInsert_action (p : ℕ) (a : Action) :
    ∀ (l : List Action), l.Pairwise priorityDescRel →
      (pyInsert keepByPriorityDesc a l).filter (fun x => x.priority == p) =
        l.filter (fun x => x.priority == p) ++ (if a.priority == p then [a] else []) := by
  intro l
  induction l with
  | nil =>
    intro _
    by_cases h : a.priority = p <;> simp [pyInsert, List.filter_cons, h]
  | cons b l ih =>
    intro hl
    rcases List.pairwise_cons.mp hl with ⟨hbl, hl'⟩
    rw [pyInsert]
    cases hk : keepByPriorityDesc b a
    · simp only [Bool.false_eq_true, if_false]
      have hba : b.priority < a.priority := keep_desc_lt hk
      by_cases ha : a.priority = p
      · have hnil : (b :: l).filter (fun x => x.priority == p) = [] := by
          rw [List.filter_eq_nil_iff]
          intro x hx
          rcases List.mem_cons.mp hx with rfl | hx'
          · simp only [beq_iff_eq]
            omega
          · have hxb : x.priority ≤ b.priority := hbl x hx'
            simp only [beq_iff_eq]
            omega
        rw [List.filter_cons_of_pos (by simpa using ha), hnil]
        simp [ha]
      · rw [List.filter_cons_of_neg (by simpa using ha)]
        simp [ha]
    · simp only [if_true]
      by_cases hb : b.priority = p
      · rw [List.filter_cons_of_pos (by simpa using hb),
            List.filter_cons_of_pos (by simpa using hb), ih hl']
        simp
      · rw [List.filter_cons_of_neg (by simpa using hb),
            List.filter_cons_of_neg (by simpa using hb), ih hl']

/-- Stability of the whole fold: the filter of every priority class is the
filter of the accumulator followed by the filter of the input. -/
theorem sortActions_foldl_filter (p : ℕ) :
    ∀ (l acc : List Action), acc.Pairwise priorityDescRel →
      (l.foldl (fun acc a => pyInsert keepByPriorityDesc a acc)
          acc).filter (fun x => x.priority == p) =
        acc.filter (fun x => x.priority == p) ++ l.filter (fun x => x.priority == p) := by
  intro l
  induction l with
  | nil => intro acc _; simp
  | cons a l ih =>
    intro acc hacc
    have step := ih (pyInsert keepByPriorityDesc a acc) (pyInsert_action_pairwise hacc)
    rw [List.foldl_cons, step, filter_pyInsert_action p a acc hacc]
    by_cases ha : a.priority = p
    · rw [List.filter_cons_of_pos (by simpa using ha)]
      simp [ha]
    · rw [List.filter_cons_of_neg (by simpa using ha)]
      simp [ha]

/-- `sortActionsDesc` is stable: it preserves every priority class verbatim,
hence the relative emission order among equal priorities. -/
theorem sortActionsDesc_filter (l : List Action) (p : ℕ) :
    (sortActionsDesc l).filter (fun x => x.priority == p) =
      l.filter (fun x => x.priority == p) :=
  sortActions_foldl_filter p l [] List.Pairwise.nil

/-! ## Lemmas about `argsort` and cosine similarity -/

/-- The argsort fold keeps the accumulator pairwise-ordered by `lexLt`,
provided the pending indices are strictly increasing and larger than every
accumulated index (which makes the stable tie-break an ascending index
order). -/
theorem argsort_foldl_pairwise (v : List ℝ) :
    ∀ (idxs acc : List ℕ), idxs.Pairwise (· < ·) → acc.Pairwise (lexLt v) →
      (∀ j ∈ acc, ∀ i ∈ idxs, j < i) →
      (idxs.foldl (fun acc i => pyInsert (keepByValueAsc v) i acc) acc).Pairwise (lexLt v) := by
  intro idxs
  induction idxs with
  | nil => intro acc _ hacc _; exact hacc
  | cons i idxs ih =>
    intro acc hidx hacc hcross
    rcases List.pairwise_cons.mp hidx with ⟨hi_idx, hidx'⟩
    refine ih (pyInsert (keepByValueAsc v) i acc) hidx' ?_ ?_
    · refine pyInsert_pairwise hacc ?_ ?_ ?_
      · intro b hb hkeep
        have hle : v.getD b 0 ≤ v.getD i 0 := by
          simpa [keepByValueAsc] using hkeep
        rcases lt_or_eq_of_le hle with hlt | heq
        · exact Or.inl hlt
        · exact Or.inr ⟨heq, hcross b hb i (List.mem_cons_self i idxs)⟩
      · intro b hb hkeep
        have hnot : ¬ v.getD b 0 ≤ v.getD i 0 := by
          simpa [keepByValueAsc] using hkeep
        exact Or.inl (lt_of_not_le hnot)
      · intro b hb c _ hkeep hbc
        have hnot : ¬ v.getD b 0 ≤ v.getD i 0 := by
          simpa [keepByValueAsc] using hkeep
        have hlt : v.getD i 0 < v.getD b 0 := lt_of_not_le hnot
        rcases hbc with hbc | ⟨hbc, _⟩
        · exact Or.inl (lt_trans hlt hbc)
        · exact Or.inl (hbc ▸ hlt)
    · intro j hj i' hi'
      rcases List.mem_cons.mp ((pyInsert_perm (keepByValueAsc v) i acc).mem_iff.mp hj) with
        rfl | hj'
      · exact hi_idx i' hi'
      · exact hcross j hj' i' (List.mem_cons_of_mem i hi')

/-- `argsort` output is ordered by ascending value with ties broken by
ascending original index. -/
theorem argsort_pairwise (v : List ℝ) : (argsort v).Pairwise (lexLt v) := by
  refine argsort_foldl_pairwise v (List.range v.length) [] ?_ List.Pairwise.nil ?_
  · exact List.pairwise_lt_range v.length
  · intro j hj
    cases hj

/-- `argsort` permutes the index range. -/
theorem argsort_perm (v : List ℝ) : (argsort v).Perm (List.range v.length) :=
  pySort_perm _ _

/-- `argsort` returns one index per input entry. -/
theorem argsort_length (v : List ℝ) : (argsort v).length = v.length := by
  rw [(argsort_perm v).length_eq, List.length_range]

/-- Every index returned by `argsort` is in range. -/
theorem argsort_mem {v : List ℝ} {i : ℕ} (h : i ∈ argsort v) : i < v.length :=
  List.mem_range.mp ((argsort_perm v).mem_iff.mp h)

/-- The dot product of the zero vector with itself is zero. -/
theorem dotList_replicate_zero (n : ℕ) :
    dotList (List.replicate n 0) (List.replicate n 0) = 0 := by
  induction n with
  | zero => simp [dotList]
  | succ n ih =>
    rw [List.replicate_succ]
    simp only [dotList, List.zipWith_cons_cons, List.sum_cons] at ih ⊢
    rw [ih]
    ring

/-- The norm of the zero vector is zero. -/
theorem normL2_replicate_zero (n : ℕ) : normL2 (List.replicate n 0) = 0 := by
  rw [normL2, dotList_replicate_zero, Real.sqrt_zero]

/-- Cosine similarity of the one-dimensional unit vector with itself is 1. -/
theorem cosine_similarity_unit : cosine_similarity [(1 : ℝ)] [(1 : ℝ)] = 1 := by
  have hdot : dotList [(1 : ℝ)] [(1 : ℝ)] = 1 := by
    simp [dotList]
  have hnorm : normL2 [(1 : ℝ)] = 1 := by
    rw [normL2, hdot, Real.sqrt_one]
  rw [cosine_similarity]
  simp only [hdot, hnorm]
  norm_num

/-! ## Lemmas about the execution loop's event trace -/

/-- `_medical_review` never inserts a conversation record. -/
theorem medical_review_no_conv (env : Env) (ctx : Context) :
    Event.conversationStored ∉ (medical_review env ctx).2 := by
  unfold medical_review
  repeat' split
  all_goals simp

/-- `_pregnancy_update` never inserts a conversation record. -/
theorem pregnancy_update_no_conv (env : Env) (ctx : Context) :
    Event.conversationStored ∉ (pregnancy_update env ctx).2 := by
  unfold pregnancy_update
  repeat' split
  all_goals simp [apply_ite]

/-- `_pregnancy_education` never inserts a conversation record. -/
theorem pregnancy_education_no_conv (env : Env) (ctx : Context) :
    Event.conversationStored ∉ (pregnancy_education env ctx).2 := by
  unfold pregnancy_education
  repeat' split
  all_goals simp [apply_ite]

/-- `_contraction_tracking` never inserts a conversation record. -/
theorem contraction_tracking_no_conv (env : Env) (ctx : Context) :
    Event.conversationStored ∉ (contraction_tracking env ctx).2 := by
  simp [contraction_tracking]

/-- `_schedule_appointment` never inserts a conversation record. -/
theorem schedule_appointment_no_conv (env : Env) (ctx : Context) :
    Event.conversationStored ∉ (schedule_appointment env ctx).2 := by
  unfold schedule_appointment
  repeat' split
  all_goals simp

/-- `_upload_document` never inserts a conversation record. -/
theorem upload_document_no_conv (env : Env) (ctx : Context) :
    Event.conversationStored ∉ (upload_document env ctx).2 := by
  unfold upload_document
  repeat' split
  all_goals simp

/-- `_create_reminder` never inserts a conversation record. -/
theorem create_reminder_no_conv (env : Env) (ctx : Context) :
    Event.conversationStored ∉ (create_reminder env ctx).2 := by
  unfold create_reminder
  repeat' split
  all_goals simp

/-- `_emergency_contact` never inserts a conversation record. -/
theorem emergency_contact_no_conv (env : Env) (ctx : Context) :
    Event.conversationStored ∉ (emergency_contact env ctx).2 := by
  unfold emergency_contact
  repeat' split
  all_goals simp

/-- `_symptom_tracking` never inserts a conversation record. -/
theorem symptom_tracking_no_conv (env : Env) (ctx : Context) :
    Event.conversationStored ∉ (symptom_tracking env ctx).2 := by
  unfold symptom_tracking
  repeat' split
  all_goals simp

/-- No available handler inserts a conversation record. -/
theorem run_handler_no_conv (env : Env) (t : String) (ctx : Context)
    (r : ActionResult × List Event) (h : run_handler env t ctx = some r) :
    Event.conversationStored ∉ r.2 := by
  unfold run_handler at h
  split_ifs at h
  all_goals cases h
  exacts [schedule_appointment_no_conv env ctx, upload_document_no_conv env ctx,
    medical_review_no_conv env ctx, pregnancy_update_no_conv env ctx,
    create_reminder_no_conv env ctx, emergency_contact_no_conv env ctx,
    pregnancy_education_no_conv env ctx, symptom_tracking_no_conv env ctx,
    contraction_tracking_no_conv env ctx]

/-- Executing any single action never inserts a conversation record. -/
theorem execute_action_no_conv (env : Env) (action : Action) (ctx : Context) :
    Event.conversationStored ∉ (execute_action env action ctx).2.2 := by
  cases hr : run_handler env action.action_type ctx with
  | none => simp [execute_action, hr]
  | some r =>
    simp only [execute_action, hr]
    exact run_handler_no_conv env action.action_type ctx r hr

/-- The execution loop emits only action-execution and memory events. -/
theorem execute_top_actions_no_conv (env : Env) (ctx : Context) (actions : List Action) :
    Event.conversationStored ∉ (execute_top_actions env ctx actions).snd := by
  have aux : ∀ (l : List Action) (acc : List ExecutedAction × List Event),
      Event.conversationStored ∉ acc.snd →
      Event.conversationStored ∉
        (l.foldl
          (fun acc action =>
            if 2 ≤ action.priority then
              let r := execute_action env action ctx
              (acc.fst ++ [{ action_type := action.action_type
                             description := action.description
                             result := r.fst }],
               acc.snd ++ [Event.actionExecuted action.action_type] ++ r.snd.snd)
            else acc)
          acc).snd := by
    intro l
    induction l with
    | nil => intro acc hacc; exact hacc
    | cons a l ih =>
      intro acc hacc
      rw [List.foldl_cons]
      by_cases ha : 2 ≤ a.priority
      · refine ih _ ?_
        rw [if_pos ha]
        intro hmem
        rcases List.mem_append.mp hmem with hmem | hmem
        · rcases List.mem_append.mp hmem with hmem | hmem
          · exact hacc hmem
          · simp at hmem
        · exact execute_action_no_conv env a ctx hmem
      · rw [if_neg ha]
        exact ih acc hacc
  exact aux _ _ (by simp)

/-- The execution loop returns at most three executed-action entries. -/
theorem execute_top_actions_length (env : Env) (ctx : Context) (actions : List Action) :
    (execute_top_actions env ctx actions).fst.length ≤ 3 := by
  have aux : ∀ (l : List Action) (acc : List ExecutedAction × List Event),
      (l.foldl
        (fun acc action =>
          if 2 ≤ action.priority then
            let r := execute_action env action ctx
            (acc.fst ++ [{ action_type := action.action_type
                           description := action.description
                           result := r.fst }],
             acc.snd ++ [Event.actionExecuted action.action_type] ++ r.snd.snd)
          else acc)
        acc).fst.length ≤ acc.fst.length + l.length := by
    intro l
    induction l with
    | nil => intro acc; simp
    | cons a l ih =>
      intro acc
      rw [List.foldl_cons]
      by_cases ha : 2 ≤ a.priority
      · rw [if_pos ha]
        have := ih (acc.fst ++ [{ action_type := a.action_type
                                  description := a.description
                                  result := (execute_action env a ctx).fst }],
                    acc.snd ++ [Event.actionExecuted a.action_type] ++
                      (execute_action env a ctx).snd.snd)
        simp only [List.length_append, List.length_cons, List.length_nil] at this ⊢
        omega
      · rw [if_neg ha]
        have := ih acc
        simp only [List.length_cons] at this ⊢
        omega
  have h := aux (actions.take 3) ([], [])
  have hlen : (actions.take 3).length ≤ 3 := List.length_take_le 3 actions
  simp only [List.length_nil] at h
  calc (execute_top_actions env ctx actions).fst.length
      ≤ 0 + (actions.take 3).length := h
    _ ≤ 3 := by omega

/-! ## The claims -/

/-- Claim C1, amended.  For a profile in week 20 with exactly one attached
medical document, `process_message` plans the three actions
pregnancy-update (priority 2), pregnancy-education (priority 2) and
medical-review (priority 1), in that sorted order; but the execution loop
runs only the top-3 actions with priority `≥ 2`, so exactly the two
priority-2 actions are executed, in priority order, and two (not three)
executed-action result entries are returned — medical-review is planned but
not executed. -/
theorem claim1_plan_and_execute (env : Env) (profile : UserProfile) (sid : String)
    (message : String) (callerContext : PyDict)
    (hp : env.profileRes = .ok (some profile))
    (hw : profile.pregnancy_week = some 20)
    (hd : profile.medical_documents.length = 1)
    (hs : env.storeConversationRes = .ok sid) :
    (analyze_user_needs env).map (fun a => (a.action_type, a.priority)) =
      [("pregnancy_update", 2), ("pregnancy_education", 2), ("medical_review", 1)] ∧
    (process_message env message callerContext).1.actions.map (fun a => a.action_type) =
      ["pregnancy_update", "pregnancy_education"] := by
  have hemit : analyze_user_needs env = sortActionsDesc (emitted_actions profile) := by
    simp [analyze_user_needs, hp]
  have hacts : analyze_user_needs env =
      [{ action_type := "pregnancy_update"
         description := "Update pregnancy information for week " ++ toString (20 : Int)
         priority := 2
         metadata := [("pregnancy_week", toString (20 : Int))]
         completed := false },
       { action_type := "pregnancy_education"
         description := "Provide education for pregnancy week " ++ toString (20 : Int)
         priority := 2
         metadata := [("education_type", "weekly_info")]
         completed := false },
       { action_type := "medical_review"
         description := "Perform medical review of uploaded documents"
         priority := 1
         metadata := [("review_type", "comprehensive")]
         completed := false }] := by
    rw [hemit]
    simp [emitted_actions, hw, hd, truthyOptInt, sortActionsDesc, pySort, pyInsert,
      keepByPriorityDesc]
  constructor
  · rw [hacts]
    simp
  · simp only [process_message, hp, hs]
    rw [hacts]
    simp [execute_top_actions, List.take]

/-- Claim C1 witness: the concrete environment `env0` realises the amended
claim's hypotheses and conclusions. -/
theorem claim1_witness :
    env0.profileRes = .ok (some profileWeek20) ∧
    profileWeek20.pregnancy_week = some 20 ∧
    profileWeek20.medical_documents.length = 1 ∧
    env0.storeConversationRes = .ok "conv-1" ∧
    (analyze_user_needs env0).map (fun a => (a.action_type, a.priority)) =
      [("pregnancy_update", 2), ("pregnancy_education", 2), ("medical_review", 1)] ∧
    (process_message env0 "שלום" []).1.actions.map (fun a => a.action_type) =
      ["pregnancy_update", "pregnancy_education"] := by
  refine ⟨rfl, rfl, rfl, rfl, ?_, ?_⟩
  · exact (claim1_plan_and_execute env0 profileWeek20 "conv-1" "שלום" [] rfl rfl rfl rfl).1
  · exact (claim1_plan_and_execute env0 profileWeek20 "conv-1" "שלום" [] rfl rfl rfl rfl).2

/-- Claim C1 counterexample to the claim as stated: in the week-20,
one-document scenario the turn returns two executed-action entries, not
three. -/
theorem claim1_counterexample :
    (process_message env0 "שלום" []).1.actions.length = 2 ∧
    ¬ (process_message env0 "שלום" []).1.actions.length = 3 := by
  decide

/-- Claim C2, amended.  `execute_action` returns the handler's result for
every known action type — including the `info` result of an unmet
precondition (medical review with zero documents) and the `error` result of
a raised collaborator error — but it still sets the action's `completed`
flag to `True` whenever the handler returns; `completed` is left unchanged
(`False` for a fresh action) only for unknown action types, which yield an
`error` result. -/
theorem claim2_execute_action_completion (env : Env) (action : Action) (ctx : Context) :
    (∀ r, run_handler env action.action_type ctx = some r →
      (execute_action env action ctx).1 = r.1 ∧
      (execute_action env action ctx).2.1.completed = true) ∧
    (run_handler env action.action_type ctx = none →
      (execute_action env action ctx).1.status = "error" ∧
      (execute_action env action ctx).2.1.completed = action.completed) ∧
    (∀ profile, env.profileRes = .ok (some profile) → profile.medical_documents = [] →
      (medical_review env ctx).1.status = "info") ∧
    (∀ profile e, env.profileRes = .ok (some profile) → profile.medical_documents ≠ [] →
      env.aiMedicalReviewRes = .error e →
      (medical_review env ctx).1.status = "error") := by
  refine ⟨?_, ?_, ?_, ?_⟩
  · intro r h
    simp [execute_action, h]
  · intro h
    simp [execute_action, h]
  · intro profile hp hdocs
    simp [medical_review, get_user_medical_documents, hp, hdocs]
  · intro profile e hp hdocs hai
    simp [medical_review, get_user_medical_documents, hp, hai,
      List.isEmpty_iff, hdocs, errorResult]

/-- Claim C2 witness: a known action type with an ok handler run. -/
theorem claim2_witness :
    run_handler envNoDocs medicalReviewAction.action_type emptyContext =
      some (medical_review envNoDocs emptyContext) ∧
    (execute_action envNoDocs medicalReviewAction emptyContext).2.1.completed = true :=
  ⟨rfl,
    ((claim2_execute_action_completion envNoDocs medicalReviewAction emptyContext).1
      (medical_review envNoDocs emptyContext) rfl).2⟩

/-- Claim C2 counterexample to the claim as stated: with zero documents the
medical-review action's result has status `info`, yet `execute_action`
marks the action completed (`True`), not `False`. -/
theorem claim2_counterexample :
    (execute_action envNoDocs medicalReviewAction emptyContext).1.status = "info" ∧
    (execute_action envNoDocs medicalReviewAction emptyContext).2.1.completed = true ∧
    medicalReviewAction.completed = false := by
  decide

/-- Claim C3, amended.  For every query, candidate list and `top_k ≥ 1`,
`similarity_search` returns exactly `min top_k n` candidate indices, ordered
by cosine similarity descending (non-increasing), every returned index in
range, and a permutation of all indices once `top_k` reaches the candidate
count — and these properties hold for *every* admissible result of
`np.argsort` (any value-sorted permutation of the indices), since the
source's default quicksort leaves the order among equal similarities
implementation-defined.  The first conjunct proves this for an arbitrary
admissible argsort result; the remaining conjuncts record that the file's
executable refinement is admissible, that `similarity_search` is its
composition with `[-top_k:][::-1]`, and the same four properties for
`similarity_search` itself.  (For `top_k = 0`, Python's `[-0:]` slice
returns all candidates, as the counterexample records.) -/
theorem claim3_similarity_ranking (query : List ℝ) (docs : List (List ℝ)) (k : ℕ)
    (hk : 1 ≤ k) :
    (∀ idxs : List ℕ, IsArgsortOf (docs.map (cosine_similarity query)) idxs →
      ((takeLastPy k idxs).reverse.length = min k docs.length ∧
        (takeLastPy k idxs).reverse.Pairwise (fun i j =>
          (docs.map (cosine_similarity query)).getD j 0 ≤
            (docs.map (cosine_similarity query)).getD i 0) ∧
        (∀ i ∈ (takeLastPy k idxs).reverse, i < docs.length) ∧
        (docs.length ≤ k → ((takeLastPy k idxs).reverse).Perm (List.range docs.length)))) ∧
    IsArgsortOf (docs.map (cosine_similarity query))
      (argsort (docs.map (cosine_similarity query))) ∧
    (docs.isEmpty = false → similarity_search query docs k =
      (takeLastPy k (argsort (docs.map (cosine_similarity query)))).reverse) ∧
    ((similarity_search query docs k).length = min k docs.length ∧
      (similarity_search query docs k).Pairwise (fun i j =>
        (docs.map (cosine_similarity query)).getD j 0 ≤
          (docs.map (cosine_similarity query)).getD i 0) ∧
      (∀ i ∈ similarity_search query docs k, i < docs.length) ∧
      (docs.length ≤ k → (similarity_search query docs k).Perm (List.range docs.length))) := by
  have hk0 : k ≠ 0 := by omega
  have hlenmap : (docs.map (cosine_similarity query)).length = docs.length :=
    List.length_map docs (cosine_similarity query)
  have hgen : ∀ idxs : List ℕ, IsArgsortOf (docs.map (cosine_similarity query)) idxs →
      ((takeLastPy k idxs).reverse.length = min k docs.length ∧
        (takeLastPy k idxs).reverse.Pairwise (fun i j =>
          (docs.map (cosine_similarity query)).getD j 0 ≤
            (docs.map (cosine_similarity query)).getD i 0) ∧
        (∀ i ∈ (takeLastPy k idxs).reverse, i < docs.length) ∧
        (docs.length ≤ k → ((takeLastPy k idxs).reverse).Perm (List.range docs.length))) := by
    rintro idxs ⟨hperm, hsorted⟩
    have hilen : idxs.length = docs.length := by
      rw [hperm.length_eq, List.length_range, hlenmap]
    have htake : takeLastPy k idxs = idxs.drop (idxs.length - k) := by
      rw [takeLastPy, if_neg hk0]
    refine ⟨?_, ?_, ?_, ?_⟩
    · rw [List.length_reverse, htake, List.length_drop, hilen]
      omega
    · refine List.pairwise_reverse.mpr ?_
      exact hsorted.sublist (htake ▸ List.drop_sublist _ _)
    · intro i hi
      rw [List.mem_reverse] at hi
      have hmem : i ∈ idxs := (htake ▸ List.drop_sublist _ _).subset hi
      have hr := List.mem_range.mp (hperm.mem_iff.mp hmem)
      omega
    · intro hnk
      have hzero : idxs.length - k = 0 := by omega
      rw [htake, hzero, List.drop_zero]
      exact idxs.reverse_perm.trans (hlenmap ▸ hperm)
  have hmodel : IsArgsortOf (docs.map (cosine_similarity query))
      (argsort (docs.map (cosine_similarity query))) := by
    refine ⟨argsort_perm _, ?_⟩
    refine (argsort_pairwise (docs.map (cosine_similarity query))).imp ?_
    intro i j hij
    rcases hij with hlt | ⟨heq, _⟩
    · exact le_of_lt hlt
    · exact le_of_eq heq
  have hcomp : docs.isEmpty = false → similarity_search query docs k =
      (takeLastPy k (argsort (docs.map (cosine_similarity query)))).reverse := by
    intro hd
    simp [similarity_search, hd]
  refine ⟨hgen, hmodel, hcomp, ?_⟩
  cases hde : docs.isEmpty with
  | true =>
    have hd' : docs = [] := List.isEmpty_iff.mp hde
    subst hd'
    simp [similarity_search]
  | false =>
    rw [hcomp hde]
    exact hgen _ hmodel

/-- Claim C3 witness: a singleton candidate list with `top_k = 1`. -/
theorem claim3_witness :
    1 ≤ 1 ∧
    (similarity_search [(1 : ℝ)] [[(1 : ℝ)]] 1).length = min 1 [[(1 : ℝ)]].length :=
  ⟨le_refl 1, (claim3_similarity_ranking [(1 : ℝ)] [[(1 : ℝ)]] 1 (le_refl 1)).2.2.2.1⟩

/-- Claim C3 counterexample to the claim as stated: two identical candidates
tie in similarity and the returned order is `[1, 0]`, not the claimed
`[0, 1]` — two elements are inside numpy's small-array insertion-sort
regime, where the real `np.argsort` is stable ascending and the source's
trailing `[::-1]` therefore reverses the tie to index descending, violating
the claimed index-ascending tie-break; and with `top_k = 0` all indices are
returned instead of none. -/
theorem claim3_counterexample :
    similarity_search [(1 : ℝ)] [[(1 : ℝ)], [(1 : ℝ)]] 2 = [1, 0] ∧
    similarity_search [(1 : ℝ)] [[(1 : ℝ)], [(1 : ℝ)]] 2 ≠ [0, 1] ∧
    ¬ (similarity_search [(1 : ℝ)] [[(1 : ℝ)], [(1 : ℝ)]] 2).Pairwise
      (fun i j =>
        ([[(1 : ℝ)], [(1 : ℝ)]].map (cosine_similarity [(1 : ℝ)])).getD j 0 <
            ([[(1 : ℝ)], [(1 : ℝ)]].map (cosine_similarity [(1 : ℝ)])).getD i 0 ∨
          (([[(1 : ℝ)], [(1 : ℝ)]].map (cosine_similarity [(1 : ℝ)])).getD i 0 =
              ([[(1 : ℝ)], [(1 : ℝ)]].map (cosine_similarity [(1 : ℝ)])).getD j 0 ∧
            i < j)) ∧
    (similarity_search [(1 : ℝ)] [[(1 : ℝ)], [(1 : ℝ)]] 0).length = 2 := by
  have hargs : argsort [cosine_similarity [(1 : ℝ)] [(1 : ℝ)],
      cosine_similarity [(1 : ℝ)] [(1 : ℝ)]] = [0, 1] := by
    have hkeep : keepByValueAsc [cosine_similarity [(1 : ℝ)] [(1 : ℝ)],
        cosine_similarity [(1 : ℝ)] [(1 : ℝ)]] 0 1 = true := by
      simp [keepByValueAsc]
    simp [argsort, pySort, List.range_succ, pyInsert, hkeep]
  have h2 : similarity_search [(1 : ℝ)] [[(1 : ℝ)], [(1 : ℝ)]] 2 = [1, 0] := by
    simp [similarity_search, hargs, takeLastPy]
  have h0 : similarity_search [(1 : ℝ)] [[(1 : ℝ)], [(1 : ℝ)]] 0 = [1, 0] := by
    simp [similarity_search, hargs, takeLastPy]
  refine ⟨h2, by rw [h2]; simp, ?_, by rw [h0]; simp⟩
  rw [h2]
  intro hpw
  have := (List.pairwise_cons.mp hpw).1 0 (List.mem_singleton.mpr rfl)
  rcases this with hlt | ⟨_, hij⟩
  · exact absurd hlt (lt_irrefl _)
  · omega

/-- Claim C4: if the embedding phase fails (query embedding or any memory
embedding raises), `get_relevant_memories` does not raise and returns
exactly the first `limit` records of the already-sorted candidate list. -/
theorem claim4_fallback (env : Env) (query : String) (limit : ℕ) (e : String)
    (h : embed_all env query = .error e) :
    get_relevant_memories env query limit = env.memories.take limit := by
  unfold get_relevant_memories
  by_cases hm : env.memories.isEmpty
  · rw [if_pos hm]
    have hnil : env.memories = [] := List.isEmpty_iff.mp hm
    rw [hnil, List.take_nil]
  · rw [if_neg hm, h]

/-- Claim C4 witness: with the embedding service down and one stored memory,
the retriever returns the head of the candidate ordering. -/
theorem claim4_witness :
    embed_all envEmbedDown "שלום" = .error "embedding service unavailable" ∧
    get_relevant_memories envEmbedDown "שלום" 3 = envEmbedDown.memories.take 3 ∧
    envEmbedDown.memories.take 3 = [mem0] :=
  ⟨rfl, claim4_fallback envEmbedDown "שלום" 3 "embedding service unavailable" rfl, rfl⟩

/-- Claim C5, amended.  In every successfully-stored turn the conversation
memory is persisted exactly once, after response generation but *before*
the top-N actions execute: the event trace is the conversation insert
followed by the execution events, which never contain another conversation
insert. -/
theorem claim5_conversation_store_order (env : Env) (profile : UserProfile)
    (sid message : String) (callerContext : PyDict)
    (hp : env.profileRes = .ok (some profile))
    (hs : env.storeConversationRes = .ok sid) :
    ∃ rest : List Event,
      (process_message env message callerContext).2 = Event.conversationStored :: rest ∧
      Event.conversationStored ∉ rest := by
  refine ⟨(execute_top_actions env (get_conversation_context env callerContext)
    (analyze_user_needs env)).snd, ?_, ?_⟩
  · simp [process_message, hp, hs]
  · exact execute_top_actions_no_conv env _ _

/-- Claim C5 witness: the concrete trace of `env0`'s turn starts with the
conversation insert and repeats it nowhere. -/
theorem claim5_witness :
    env0.profileRes = .ok (some profileWeek20) ∧
    env0.storeConversationRes = .ok "conv-1" ∧
    ∃ rest : List Event,
      (process_message env0 "שלום" []).2 = Event.conversationStored :: rest ∧
      Event.conversationStored ∉ rest :=
  ⟨rfl, rfl, claim5_conversation_store_order env0 profileWeek20 "conv-1" "שלום" [] rfl rfl⟩

/-- Claim C5 counterexample to the claim as stated: in the concrete week-20
turn the conversation record is the *first* event of the trace and action
executions follow it, so the conversation memory is not persisted after the
top-N actions (the claimed RESPOND-last ordering). -/
theorem claim5_counterexample :
    (process_message env0 "שלום" []).2 =
      [Event.conversationStored, Event.actionExecuted "pregnancy_update",
       Event.actionExecuted "pregnancy_education", Event.memoryStored "pregnancy"] ∧
    (process_message env0 "שלום" []).2.head? = some Event.conversationStored ∧
    Event.actionExecuted "pregnancy_update" ∈ (process_message env0 "שלום" []).2.tail := by
  decide

/-- Claim C6: `_cosine_similarity` returns `dot(a,b) / (||a||·||b||)` when
both norms are nonzero, returns `0` whenever either norm is zero (never a
division by zero), and in particular the similarity of any vector with a
zero vector is `0`. -/
theorem claim6_cosine_zero_safe (vec1 vec2 : List ℝ) :
    (normL2 vec1 = 0 ∨ normL2 vec2 = 0 → cosine_similarity vec1 vec2 = 0) ∧
    (normL2 vec1 ≠ 0 → normL2 vec2 ≠ 0 →
      cosine_similarity vec1 vec2 = dotList vec1 vec2 / (normL2 vec1 * normL2 vec2)) ∧
    (∀ n : ℕ, cosine_similarity vec1 (List.replicate n 0) = 0) := by
  refine ⟨?_, ?_, ?_⟩
  · intro h
    simp only [cosine_similarity]
    rw [if_pos h]
  · intro h1 h2
    simp only [cosine_similarity]
    rw [if_neg (not_or.mpr ⟨h1, h2⟩)]
  · intro n
    simp only [cosine_similarity]
    rw [if_pos (Or.inr (normL2_replicate_zero n))]

/-- Claim C6 witness: the unit vector against the zero vector. -/
theorem claim6_witness :
    (normL2 [(1 : ℝ)] = 0 ∨ normL2 [(0 : ℝ)] = 0) ∧
    cosine_similarity [(1 : ℝ)] [(0 : ℝ)] = 0 := by
  have h0 : normL2 [(0 : ℝ)] = 0 := by
    have := normL2_replicate_zero 1
    simpa using this
  exact ⟨Or.inr h0, (claim6_cosine_zero_safe [(1 : ℝ)] [(0 : ℝ)]).1 (Or.inr h0)⟩

/-- Claim C7: `analyze_user_needs` returns exactly the emitted candidate
actions sorted by priority descending; the sort is stable (it is a
permutation that preserves every priority class verbatim), and the spec's
example `[A(1), B(2), C(1), D(3)]` sorts to `[D, B, A, C]`. -/
theorem claim7_stable_priority_sort :
    (∀ (env : Env) (profile : UserProfile), env.profileRes = .ok (some profile) →
      analyze_user_needs env = sortActionsDesc (emitted_actions profile)) ∧
    (∀ l : List Action,
      (sortActionsDesc l).Perm l ∧
      (sortActionsDesc l).Pairwise priorityDescRel ∧
      ∀ p : ℕ, (sortActionsDesc l).filter (fun x => x.priority == p) =
        l.filter (fun x => x.priority == p)) ∧
    sortActionsDesc [actionA, actionB, actionC, actionD] =
      [actionD, actionB, actionA, actionC] := by
  refine ⟨?_, ?_, by decide⟩
  · intro env profile h
    simp [analyze_user_needs, h]
  · intro l
    exact ⟨pySort_perm _ _, sortActionsDesc_pairwise l,
      fun p => sortActionsDesc_filter l p⟩

/-- Claim C7 witness: the planner equation instantiated at `env0`. -/
theorem claim7_witness :
    env0.profileRes = .ok (some profileWeek20) ∧
    analyze_user_needs env0 = sortActionsDesc (emitted_actions profileWeek20) :=
  ⟨rfl, claim7_stable_priority_sort.1 env0 profileWeek20 rfl⟩

/-- Claim C8: `process_message` never propagates a collaborator error: a
raised profile fetch and a raised conversation store — the only raising
steps not already degraded inside their callees — both return the fixed
apology response with an empty action list, and every turn returns at most
three executed-action entries (an empty or partial list). -/
theorem claim8_never_crash (env : Env) (message : String) (callerContext : PyDict) :
    (∀ e, env.profileRes = .error e →
      process_message env message callerContext = (apologyResponse, [])) ∧
    (∀ profile e, env.profileRes = .ok (some profile) →
      env.storeConversationRes = .error e →
      process_message env message callerContext = (apologyResponse, [])) ∧
    (process_message env message callerContext).1.actions.length ≤ 3 := by
  refine ⟨?_, ?_, ?_⟩
  · intro e he
    simp [process_message, he]
  · intro profile e hp hs
    simp [process_message, hp, hs]
  · cases hp : env.profileRes with
    | error e => simp [process_message, hp, apologyResponse]
    | ok p? =>
      cases p? with
      | none => simp [process_message, hp, needsProfileResponse]
      | some profile =>
        cases hs : env.storeConversationRes with
        | error e => simp [process_message, hp, hs, apologyResponse]
        | ok sid =>
          simp only [process_message, hp, hs]
          exact execute_top_actions_length env _ _

/-- Claim C8 witness: a turn whose profile fetch raises degrades to the
apology with no actions. -/
theorem claim8_witness :
    envProfileDown.profileRes = .error "database unavailable" ∧
    process_message envProfileDown "שלום" [] = (apologyResponse, []) :=
  ⟨rfl, (claim8_never_crash envProfileDown "שלום" []).1 "database unavailable" rfl⟩

/-- Claim C9: the two trimester classifiers disagree exactly on weeks
14–26, where `calculate_trimester` answers the third-trimester label while
`get_pregnancy_info` answers second; on weeks `≤ 13` and `≥ 27` they agree
(first and third respectively). -/
theorem claim9_trimester_disagreement (w : Int) (hw : 1 ≤ w) :
    ((14 ≤ w ∧ w ≤ 26) →
      calculate_trimester (some w) = "third" ∧
      get_pregnancy_info_trimester (some w) = some "שני") ∧
    (w ≤ 13 →
      calculate_trimester (some w) = "first" ∧
      get_pregnancy_info_trimester (some w) = some "ראשון") ∧
    (27 ≤ w →
      calculate_trimester (some w) = "third" ∧
      get_pregnancy_info_trimester (some w) = some "שלישי") ∧
    (((get_pregnancy_info_trimester (some w)).map trimester_he_to_en ≠
        some (calculate_trimester (some w))) ↔ (14 ≤ w ∧ w ≤ 26)) := by
  have h0 : w ≠ 0 := by omega
  refine ⟨?_, ?_, ?_, ?_⟩
  · rintro ⟨h14, h26⟩
    constructor
    · simp only [calculate_trimester]
      rw [if_neg (by omega), if_pos (by omega)]
    · simp only [get_pregnancy_info_trimester]
      rw [if_pos h0, if_neg (by omega), if_pos (by omega)]
  · intro h13
    constructor
    · simp only [calculate_trimester]
      rw [if_pos h13]
    · simp only [get_pregnancy_info_trimester]
      rw [if_pos h0, if_pos h13]
  · intro h27
    constructor
    · simp only [calculate_trimester]
      rw [if_neg (by omega), if_neg (by omega)]
    · simp only [get_pregnancy_info_trimester]
      rw [if_pos h0, if_neg (by omega), if_neg (by omega)]
  · by_cases h13 : w ≤ 13
    · have hc : calculate_trimester (some w) = "first" := by
        simp only [calculate_trimester]
        rw [if_pos h13]
      have hg : get_pregnancy_info_trimester (some w) = some "ראשון" := by
        simp only [get_pregnancy_info_trimester]
        rw [if_pos h0, if_pos h13]
      rw [hc, hg]
      constructor
      · intro hne
        exact absurd (by decide) hne
      · rintro ⟨h14, _⟩
        exact absurd h14 (by omega)
    · by_cases h26 : w ≤ 26
      · have hc : calculate_trimester (some w) = "third" := by
          simp only [calculate_trimester]
          rw [if_neg (by omega), if_pos (by omega)]
        have hg : get_pregnancy_info_trimester (some w) = some "שני" := by
          simp only [get_pregnancy_info_trimester]
          rw [if_pos h0, if_neg (by omega), if_pos (by omega)]
        rw [hc, hg]
        constructor
        · intro _
          exact ⟨by omega, by omega⟩
        · intro _
          decide
      · have hc : calculate_trimester (some w) = "third" := by
          simp only [calculate_trimester]
          rw [if_neg (by omega), if_neg (by omega)]
        have hg : get_pregnancy_info_trimester (some w) = some "שלישי" := by
          simp only [get_pregnancy_info_trimester]
          rw [if_pos h0, if_neg (by omega), if_neg (by omega)]
        rw [hc, hg]
        constructor
        · intro hne
          exact absurd (by decide) hne
        · rintro ⟨_, h26'⟩
          exact absurd h26' (by omega)

/-- Claim C9 witness: week 20 exhibits the disagreement. -/
theorem claim9_witness :
    (1 : Int) ≤ 20 ∧
    (calculate_trimester (some 20) = "third" ∧
      get_pregnancy_info_trimester (some 20) = some "שני") :=
  ⟨by norm_num,
    (claim9_trimester_disagreement 20 (by norm_num)).1 ⟨by norm_num, by norm_num⟩⟩

/-- Claim C10: `calculate_pregnancy_week` computes
`floor((today − lmp_date) / 7)` and clamps it with `max(1, min(42, ·))` into
`[1, 42]`, matching the `pregnancy_week` validation bounds `ge=1, le=42`;
in particular a future LMP date yields week 1, never a non-positive or
out-of-range value. -/
theorem claim10_week_clamped (today lmp_date : Int) :
    1 ≤ calculate_pregnancy_week today lmp_date ∧
    calculate_pregnancy_week today lmp_date ≤ 42 ∧
    calculate_pregnancy_week today lmp_date =
      max 1 (min 42 (Int.fdiv (today - lmp_date) 7)) ∧
    (today < lmp_date → calculate_pregnancy_week today lmp_date = 1) := by
  refine ⟨le_max_left _ _, max_le (by norm_num) (min_le_left _ _), rfl, ?_⟩
  intro h
  have hneg : today - lmp_date < 0 := by omega
  have hf : Int.fdiv (today - lmp_date) 7 < 0 := Int.fdiv_neg' hneg (by norm_num)
  show max 1 (min 42 (Int.fdiv (today - lmp_date) 7)) = 1
  omega

/-- Claim C10 witness: an LMP date five days in the future yields week 1. -/
theorem claim10_witness :
    (0 : Int) < 5 ∧ calculate_pregnancy_week 0 5 = 1 :=
  ⟨by norm_num, (claim10_week_clamped 0 5).2.2.2 (by norm_num)⟩

end PregnancyProject
